import Mathlib

/-!
Shallow embedding of `bro-otx.py`, a script that fetches threat-intel
pulses from the OTXv2 API and writes them as a Bro Intel framework file.

The embedding models:
  * the static indicator-type table `_MAP` and `map_indicator_type`;
  * the HTTP status dispatch of `_get` (the network itself is abstracted
    as a `Response` for the initial request plus a `server` function from
    next-page URLs to `Response`s);
  * the paginated generator `iter_pulses` (with explicit fuel for the
    `while` loop; the yielded prefix before an error is kept, matching
    generator semantics);
  * the record-building/writing loop of `main` (`pulse_records`,
    `run_records`, `run_main`), where Python exceptions (`KeyError` from
    dict lookup, `TypeError` from subscripting `None`) are explicit
    error values and `sys.exit` is an explicit process result.
-/

/-- Bro Intel file header format (source line 15). -/
def _HEADER : String :=
  "#fields\tindicator\tindicator_type\tmeta.source\tmeta.url\tmeta.do_notice\n"

/-- Mapping of OTXv2 indicator types to Bro Intel types (source lines 19-31). -/
def _MAP : List (String × String) :=
  [("IPv4", "Intel::ADDR"),
   ("IPv6", "Intel::ADDR"),
   ("domain", "Intel::DOMAIN"),
   ("hostname", "Intel::DOMAIN"),
   ("email", "Intel::EMAIL"),
   ("URL", "Intel::URL"),
   ("URI", "Intel::URL"),
   ("FileHash-MD5", "Intel::FILE_HASH"),
   ("FileHash-SHA1", "Intel::FILE_HASH"),
   ("FileHash-SHA256", "Intel::FILE_HASH"),
   ("CVE", "Unsupported"),
   ("Mutex", "Unsupported"),
   ("CIDR", "Unsupported")]

/-- An OTX indicator: a value plus a declared type tag
(JSON `{"indicator": ..., "type": ...}`). -/
structure Indicator where
  indicator : String
  type : String
deriving DecidableEq

/-- An OTX pulse as consumed by `main`: author name, optional list of
reference URLs (`none` models a pulse JSON object lacking the
`references` key entirely, so that dict lookup raises `KeyError`),
and a list of indicators. -/
structure Pulse where
  author_name : String
  references : Option (List String)
  indicators : List Indicator
deriving DecidableEq

/-- `map_indicator_type` (source lines 74-79): a plain dict lookup in
`_MAP`; a tag absent from the table raises `KeyError`, modelled as
`Except.error`. -/
def map_indicator_type (indicator_type : String) : Except String String :=
  match _MAP.lookup indicator_type with
  | some t => Except.ok t
  | none => Except.error ("KeyError: " ++ indicator_type)

/-- The `try: url = pulse['references'][0] except IndexError: ...` block of
`main` (source lines 100-103): first reference if the list is non-empty,
the fallback constant if the list is present but empty (`IndexError` is
caught), and an uncaught `KeyError` if the `references` key is absent. -/
def resolve_url (references : Option (List String)) : Except String String :=
  match references with
  | none => Except.error "KeyError: references"
  | some [] => Except.ok "https://otx.alienvault.com"
  | some (r :: _) => Except.ok r

/-- The inner indicator loop of `main` (source lines 96-109) for one pulse:
returns the list of 5-field records built (in order, up to the first
uncaught exception) together with the exception, if any. -/
def pulse_records (do_notice : String) (p : Pulse) :
    List Indicator → List (List String) × Option String
  | [] => ([], none)
  | ind :: rest =>
    match map_indicator_type ind.type with
    | Except.error e => ([], some e)
    | Except.ok bro_type =>
      if bro_type = "Unsupported" then pulse_records do_notice p rest
      else
        match resolve_url p.references with
        | Except.error e => ([], some e)
        | Except.ok url =>
          let r := pulse_records do_notice p rest
          ([ind.indicator, bro_type, p.author_name, url, do_notice ++ "\n"] :: r.1,
           r.2)

/-- The outer pulse loop of `main` over an already-fetched pulse list:
records built in order up to the first uncaught exception. -/
def run_records (do_notice : String) : List Pulse → List (List String) × Option String
  | [] => ([], none)
  | p :: rest =>
    let r := pulse_records do_notice p p.indicators
    match r.2 with
    | some e => (r.1, some e)
    | none =>
      let r2 := run_records do_notice rest
      (r.1 ++ r2.1, r2.2)

/-- One page of the paginated API response: a `results` array of pulses and
a `next` link (`""` models an empty/null link, which is falsy in the
source's `while next_request:` test). -/
structure Page where
  results : List Pulse
  next : String
deriving DecidableEq

/-- An HTTP response: status code plus the JSON body (only read on 200). -/
structure Response where
  status : Nat
  body : Page
deriving DecidableEq

/-- Outcome of `_get` (source lines 46-54): the parsed JSON on 200, a
printed message plus `sys.exit(1)` on 403/400, and Python's implicit
`return None` on every other status. -/
inductive GetResult where
  | page : Page → GetResult
  | exited : String → Nat → GetResult
  | noneResult : GetResult
deriving DecidableEq

/-- The status dispatch of `_get` (source lines 46-54). -/
def _get (r : Response) : GetResult :=
  if r.status = 200 then GetResult.page r.body
  else if r.status = 403 then GetResult.exited "An invalid API key was specified." 1
  else if r.status = 400 then GetResult.exited "An invalid request was made." 1
  else GetResult.noneResult

/-- How a run of the fetch loop can end abnormally: `sys.exit` from `_get`,
a `TypeError` from subscripting the `None` returned by `_get` on an
unhandled status, or fuel exhaustion (the model's cut-off for a
non-terminating pagination chain). -/
inductive FetchError where
  | exited : String → Nat → FetchError
  | typeError : FetchError
  | fuelOut : FetchError
deriving DecidableEq

/-- The `while next_request:` loop of `iter_pulses` (source lines 67-72):
yields the concatenated `results` of each fetched page, following `next`
links, stopping as soon as the link is empty. Returns the pulses yielded
before any error, plus the error. `fuel` bounds the number of iterations. -/
def iter_loop (server : String → Response) :
    Nat → String → List Pulse × Option FetchError
  | 0, next_request =>
    if next_request = "" then ([], none) else ([], some FetchError.fuelOut)
  | Nat.succ fuel, next_request =>
    if next_request = "" then ([], none)
    else
      match _get (server next_request) with
      | GetResult.exited m c => ([], some (FetchError.exited m c))
      | GetResult.noneResult => ([], some FetchError.typeError)
      | GetResult.page pg =>
        let r := iter_loop server fuel pg.next
        (pg.results ++ r.1, r.2)

/-- `iter_pulses` (source lines 56-72): the initial request followed by the
pagination loop. `first` is the response to the initial request; `server`
maps each `next` URL to its response. -/
def iter_pulses (first : Response) (server : String → Response) (fuel : Nat) :
    List Pulse × Option FetchError :=
  match _get first with
  | GetResult.exited m c => ([], some (FetchError.exited m c))
  | GetResult.noneResult => ([], some FetchError.typeError)
  | GetResult.page pg =>
    let r := iter_loop server fuel pg.next
    (pg.results ++ r.1, r.2)

/-- How the process ends: normal completion (exit 0), an explicit
`sys.exit` with a printed message, an uncaught exception (CPython exits
with status 1), or the model's fuel cut-off (the loop never finishes). -/
inductive ProcResult where
  | completed : ProcResult
  | exited : String → Nat → ProcResult
  | crashed : String → ProcResult
  | hung : ProcResult
deriving DecidableEq

/-- The exit code of a process result; `none` for a run that never exits. -/
def exit_code : ProcResult → Option Nat
  | ProcResult.completed => some 0
  | ProcResult.exited _ c => some c
  | ProcResult.crashed _ => some 1
  | ProcResult.hung => none

/-- The byte string `f.write` produces for a list of records: each record's
fields joined with `'\t'.join` (source line 109), records concatenated. -/
def join_records (recs : List (List String)) : String :=
  String.join (recs.map (String.intercalate "\t"))

/-- `main`'s write phase (source lines 93-109): the header is written first,
then each yielded pulse's records; the run ends with the first write error
(which, by generator laziness, precedes any fetch error of a later page),
otherwise with the fetch error, otherwise normally. Returns the file
content written together with the process result. -/
def run_main (do_notice : String) (first : Response) (server : String → Response)
    (fuel : Nat) : String × ProcResult :=
  let fetched := iter_pulses first server fuel
  let written := run_records do_notice fetched.1
  let body := join_records written.1
  match written.2 with
  | some e => (_HEADER ++ body, ProcResult.crashed e)
  | none =>
    match fetched.2 with
    | some (FetchError.exited m c) => (_HEADER ++ body, ProcResult.exited m c)
    | some FetchError.typeError =>
      (_HEADER ++ body, ProcResult.crashed "TypeError: NoneType object is not subscriptable")
    | some FetchError.fuelOut => (_HEADER ++ body, ProcResult.hung)
    | none => (_HEADER ++ body, ProcResult.completed)

/-- A pulse whose data `main` can process without an uncaught exception:
the `references` key is present and every indicator type is in `_MAP`. -/
def pulse_wf (p : Pulse) : Bool :=
  p.references.isSome && p.indicators.all (fun i => (_MAP.lookup i.type).isSome)

/-! ### Helper lemmas -/

/-- The pagination loop returns immediately on an empty `next` link,
whatever fuel remains. -/
theorem iter_loop_empty (server : String → Response) (fuel : Nat) :
    iter_loop server fuel "" = ([], none) := by
  cases fuel <;> simp [iter_loop]

/-- Every record built by the indicator loop has the 5-field shape, with a
category that is not the sentinel and the URL resolved from the pulse's
references. -/
theorem pulse_records_shape (d : String) (p : Pulse) :
    ∀ (inds : List Indicator) (r : List String),
      r ∈ (pulse_records d p inds).1 →
      ∃ v cat url, r = [v, cat, p.author_name, url, d ++ "\n"] ∧
        cat ≠ "Unsupported" ∧ resolve_url p.references = Except.ok url := by
  intro inds
  induction inds with
  | nil => intro r hr; simp [pulse_records] at hr
  | cons ind rest ih =>
    intro r hr
    simp only [pulse_records] at hr
    split at hr
    · simp at hr
    · rename_i bro hm
      split at hr
      · exact ih r hr
      · rename_i hbro
        split at hr
        · simp at hr
        · rename_i url hu
          simp only [List.mem_cons] at hr
          rcases hr with hr | hr
          · exact ⟨ind.indicator, bro, url, hr, hbro, hu⟩
          · exact ih r hr

/-- Every record of the outer pulse loop comes from the indicator loop of
one of the pulses. -/
theorem run_records_mem (d : String) :
    ∀ (ps : List Pulse) (r : List String), r ∈ (run_records d ps).1 →
      ∃ p, p ∈ ps ∧ r ∈ (pulse_records d p p.indicators).1 := by
  intro ps
  induction ps with
  | nil => intro r hr; simp [run_records] at hr
  | cons p rest ih =>
    intro r hr
    simp only [run_records] at hr
    split at hr
    · exact ⟨p, List.mem_cons_self _ _, hr⟩
    · simp only [List.mem_append] at hr
      rcases hr with hr | hr
      · exact ⟨p, List.mem_cons_self _ _, hr⟩
      · rcases ih r hr with ⟨q, hq, hrq⟩
        exact ⟨q, List.mem_cons_of_mem _ hq, hrq⟩

/-! ### Claim theorems -/

/-- The pulse of the spec's round-trip scenario. -/
def c1_pulse : Pulse :=
  ⟨"X", some ["http://r"], [⟨"1.2.3.4", "IPv4"⟩, ⟨"CVE-2020-1", "CVE"⟩]⟩

/-- Initial response serving only the round-trip pulse, with no next page. -/
def c1_first : Response := ⟨200, ⟨[c1_pulse], ""⟩⟩

/-- A server that is never consulted (the single page has no next link). -/
def c1_server : String → Response := fun _ => ⟨200, ⟨[], ""⟩⟩

/-- C1: every retained indicator yields exactly one record of the 5 fields
(indicator value, mapped category, author name, resolved URL, notice flag
carrying the trailing newline) joined with tabs; and on the round-trip
pulse the output is exactly the header plus the single line
`1.2.3.4\tIntel::ADDR\tX\thttp://r\t<notice>\n`, with no line for the
CVE indicator. -/
theorem c1_record_line :
    (∀ (do_notice : String) (p : Pulse) (ind : Indicator) (bro url : String)
       (rest : List Indicator),
       map_indicator_type ind.type = Except.ok bro → bro ≠ "Unsupported" →
       resolve_url p.references = Except.ok url →
       pulse_records do_notice p (ind :: rest) =
         ([ind.indicator, bro, p.author_name, url, do_notice ++ "\n"]
            :: (pulse_records do_notice p rest).1,
          (pulse_records do_notice p rest).2)) ∧
    (∀ do_notice : String,
       run_main do_notice c1_first c1_server 1 =
         (_HEADER ++ ("1.2.3.4\tIntel::ADDR\tX\thttp://r\t" ++ (do_notice ++ "\n")),
          ProcResult.completed)) := by
  constructor
  · intro d p ind bro url rest hm hb hu
    simp [pulse_records, hm, hb, hu]
  · intro d
    have h1 : map_indicator_type "IPv4" = Except.ok "Intel::ADDR" := rfl
    have h2 : map_indicator_type "CVE" = Except.ok "Unsupported" := rfl
    simp [run_main, iter_pulses, iter_loop, _get, run_records, pulse_records,
      resolve_url, join_records, String.join, String.intercalate,
      String.intercalate.go, c1_first, c1_server, c1_pulse, h1, h2]

/-- C1 witness: the general record shape instantiated on the round-trip
pulse's IPv4 indicator. -/
theorem c1_record_line_witness :
    pulse_records "T" c1_pulse [⟨"1.2.3.4", "IPv4"⟩] =
      ([["1.2.3.4", "Intel::ADDR", "X", "http://r", "T\n"]], none) :=
  c1_record_line.1 "T" c1_pulse ⟨"1.2.3.4", "IPv4"⟩ "Intel::ADDR" "http://r" []
    rfl (by decide) rfl

/-- C2: the fixed table maps every supported tag to its documented
category, maps CVE, Mutex and CIDR to the sentinel, and an indicator
carrying one of those three tags contributes nothing to the output. -/
theorem c2_type_table :
    map_indicator_type "IPv4" = Except.ok "Intel::ADDR" ∧
    map_indicator_type "IPv6" = Except.ok "Intel::ADDR" ∧
    map_indicator_type "domain" = Except.ok "Intel::DOMAIN" ∧
    map_indicator_type "hostname" = Except.ok "Intel::DOMAIN" ∧
    map_indicator_type "email" = Except.ok "Intel::EMAIL" ∧
    map_indicator_type "URL" = Except.ok "Intel::URL" ∧
    map_indicator_type "URI" = Except.ok "Intel::URL" ∧
    map_indicator_type "FileHash-MD5" = Except.ok "Intel::FILE_HASH" ∧
    map_indicator_type "FileHash-SHA1" = Except.ok "Intel::FILE_HASH" ∧
    map_indicator_type "FileHash-SHA256" = Except.ok "Intel::FILE_HASH" ∧
    map_indicator_type "CVE" = Except.ok "Unsupported" ∧
    map_indicator_type "Mutex" = Except.ok "Unsupported" ∧
    map_indicator_type "CIDR" = Except.ok "Unsupported" ∧
    (∀ (d : String) (p : Pulse) (v : String) (rest : List Indicator),
       pulse_records d p (⟨v, "CVE"⟩ :: rest) = pulse_records d p rest) ∧
    (∀ (d : String) (p : Pulse) (v : String) (rest : List Indicator),
       pulse_records d p (⟨v, "Mutex"⟩ :: rest) = pulse_records d p rest) ∧
    (∀ (d : String) (p : Pulse) (v : String) (rest : List Indicator),
       pulse_records d p (⟨v, "CIDR"⟩ :: rest) = pulse_records d p rest) := by
  have hcve : map_indicator_type "CVE" = Except.ok "Unsupported" := rfl
  have hmutex : map_indicator_type "Mutex" = Except.ok "Unsupported" := rfl
  have hcidr : map_indicator_type "CIDR" = Except.ok "Unsupported" := rfl
  refine ⟨rfl, rfl, rfl, rfl, rfl, rfl, rfl, rfl, rfl, rfl, rfl, rfl, rfl, ?_, ?_, ?_⟩ <;>
    intro d p v rest <;> simp [pulse_records, hcve, hmutex, hcidr]

/-- C3: for a two-page chain P1 → P2 → empty, the fetcher yields exactly
pulses(P1) followed by pulses(P2), in order, with no error; and the loop
returns immediately once the next link is empty. -/
theorem c3_pagination :
    (∀ (P1 P2 : Page) (server : String → Response) (fuel : Nat),
       P1.next ≠ "" → server P1.next = ⟨200, P2⟩ → P2.next = "" →
       iter_pulses ⟨200, P1⟩ server (fuel + 1) =
         (P1.results ++ P2.results, none)) ∧
    (∀ (server : String → Response) (fuel : Nat),
       iter_loop server fuel "" = ([], none)) := by
  refine ⟨?_, iter_loop_empty⟩
  intro P1 P2 server fuel h1 h2 h3
  simp [iter_pulses, _get, iter_loop, h1, h2, h3, iter_loop_empty]

/-- C3 witness: a concrete two-page chain. -/
theorem c3_pagination_witness :
    iter_pulses ⟨200, ⟨[⟨"A", some [], []⟩], "u2"⟩⟩
        (fun _ => ⟨200, ⟨[⟨"B", some [], []⟩], ""⟩⟩) 1 =
      ([⟨"A", some [], []⟩, ⟨"B", some [], []⟩], none) :=
  c3_pagination.1 ⟨[⟨"A", some [], []⟩], "u2"⟩ ⟨[⟨"B", some [], []⟩], ""⟩
    (fun _ => ⟨200, ⟨[⟨"B", some [], []⟩], ""⟩⟩) 0 (by decide) rfl rfl

/-- C4: the output of every run starts with the header (whose bytes are
exactly the documented literal), written before any data; a run over a
single empty page produces exactly the header and nothing else. -/
theorem c4_header_first :
    (_HEADER =
      "#fields\tindicator\tindicator_type\tmeta.source\tmeta.url\tmeta.do_notice\n") ∧
    (∀ (d : String) (first : Response) (server : String → Response) (fuel : Nat),
       ∃ rest, (run_main d first server fuel).1 = _HEADER ++ rest) ∧
    (∀ (d : String) (server : String → Response) (fuel : Nat),
       run_main d ⟨200, ⟨[], ""⟩⟩ server fuel = (_HEADER, ProcResult.completed)) := by
  refine ⟨rfl, ?_, ?_⟩
  · intro d first server fuel
    unfold run_main
    dsimp only
    split
    · exact ⟨_, rfl⟩
    · split <;> exact ⟨_, rfl⟩
  · intro d server fuel
    simp [run_main, iter_pulses, _get, iter_loop_empty, run_records,
      join_records, String.join]

/-- C5: no emitted record's category field is the sentinel, and an
indicator whose tag maps to the sentinel is skipped before any record is
built. -/
theorem c5_no_unsupported :
    (∀ (d : String) (ps : List Pulse) (r : List String),
       r ∈ (run_records d ps).1 → r.get? 1 ≠ some "Unsupported") ∧
    (∀ (d : String) (p : Pulse) (v t : String) (rest : List Indicator),
       map_indicator_type t = Except.ok "Unsupported" →
       pulse_records d p (⟨v, t⟩ :: rest) = pulse_records d p rest) := by
  constructor
  · intro d ps r hr
    rcases run_records_mem d ps r hr with ⟨p, _, hrp⟩
    rcases pulse_records_shape d p p.indicators r hrp with ⟨v, cat, url, rfl, hcat, _⟩
    simpa using hcat
  · intro d p v t rest hm
    simp [pulse_records, hm]

/-- C5 witness: the record emitted for a single IPv4 indicator. -/
theorem c5_no_unsupported_witness :
    (["1.2.3.4", "Intel::ADDR", "X", "http://r", "T\n"] : List String).get? 1 ≠
      some "Unsupported" :=
  c5_no_unsupported.1 "T" [⟨"X", some ["http://r"], [⟨"1.2.3.4", "IPv4"⟩]⟩]
    ["1.2.3.4", "Intel::ADDR", "X", "http://r", "T\n"] (by decide)

/-- C6: for a pulse with an empty reference list every emitted record's URL
field is the fallback constant; for a non-empty list it is the first
element. -/
theorem c6_reference_url :
    ∀ (d : String) (p : Pulse) (r : List String),
      r ∈ (pulse_records d p p.indicators).1 →
      (p.references = some [] → r.get? 3 = some "https://otx.alienvault.com") ∧
      (∀ (u : String) (us : List String),
        p.references = some (u :: us) → r.get? 3 = some u) := by
  intro d p r hr
  rcases pulse_records_shape d p p.indicators r hr with ⟨v, cat, url, rfl, _, hu⟩
  constructor
  · intro he
    rw [he] at hu
    simp only [resolve_url, Except.ok.injEq] at hu
    simp [hu]
  · intro u us he
    rw [he] at hu
    simp only [resolve_url, Except.ok.injEq] at hu
    simp [hu]

/-- C6 witness: a pulse with an empty reference list emits the fallback
URL. -/
theorem c6_reference_url_witness :
    (["1.2.3.4", "Intel::ADDR", "X", "https://otx.alienvault.com", "T\n"] :
        List String).get? 3 = some "https://otx.alienvault.com" :=
  (c6_reference_url "T" ⟨"X", some [], [⟨"1.2.3.4", "IPv4"⟩]⟩
    ["1.2.3.4", "Intel::ADDR", "X", "https://otx.alienvault.com", "T\n"]
    (by decide)).1 rfl

/-- A present `references` key always resolves to some URL (the empty-list
`IndexError` is caught and replaced by the fallback). -/
theorem resolve_url_isSome (refs : Option (List String)) (h : refs.isSome) :
    ∃ u, resolve_url refs = Except.ok u := by
  rcases refs with _ | (_ | ⟨u, us⟩)
  · simp at h
  · exact ⟨"https://otx.alienvault.com", rfl⟩
  · exact ⟨u, rfl⟩

/-- The indicator loop raises no exception when the pulse's `references`
key is present and every indicator tag is in the table. -/
theorem pulse_records_no_err (d : String) (p : Pulse) (href : p.references.isSome) :
    ∀ inds : List Indicator, (∀ i ∈ inds, (_MAP.lookup i.type).isSome) →
      (pulse_records d p inds).2 = none := by
  intro inds
  induction inds with
  | nil => intro _; simp [pulse_records]
  | cons ind rest ih =>
    intro h
    have hind := h ind (List.mem_cons_self _ _)
    have hrest : ∀ i ∈ rest, (_MAP.lookup i.type).isSome :=
      fun i hi => h i (List.mem_cons_of_mem _ hi)
    rcases ho : _MAP.lookup ind.type with _ | bro
    · rw [ho] at hind; simp at hind
    · have hm : map_indicator_type ind.type = Except.ok bro := by
        simp [map_indicator_type, ho]
      rcases resolve_url_isSome p.references href with ⟨u, hu⟩
      by_cases hb : bro = "Unsupported"
      · simpa [pulse_records, hm, hb] using ih hrest
      · simpa [pulse_records, hm, hb, hu] using ih hrest

/-- The outer pulse loop raises no exception over well-formed pulses. -/
theorem run_records_no_err (d : String) :
    ∀ ps : List Pulse, (∀ p ∈ ps, pulse_wf p = true) →
      (run_records d ps).2 = none := by
  intro ps
  induction ps with
  | nil => intro _; simp [run_records]
  | cons p rest ih =>
    intro h
    have hp := h p (List.mem_cons_self _ _)
    simp only [pulse_wf, Bool.and_eq_true, List.all_eq_true] at hp
    have he : (pulse_records d p p.indicators).2 = none :=
      pulse_records_no_err d p hp.1 p.indicators (fun i hi => hp.2 i hi)
    have hrest := ih (fun q hq => h q (List.mem_cons_of_mem _ hq))
    simp [run_records, he, hrest]

/-- When every paginated response has status 200, the fetch loop can only
end cleanly or by running out of fuel. -/
theorem iter_loop_all200 (server : String → Response)
    (h : ∀ u, (server u).status = 200) :
    ∀ (fuel : Nat) (nr : String),
      (iter_loop server fuel nr).2 = none ∨
      (iter_loop server fuel nr).2 = some FetchError.fuelOut := by
  intro fuel
  induction fuel with
  | zero =>
    intro nr
    by_cases hnr : nr = "" <;> simp [iter_loop, hnr]
  | succ fuel ih =>
    intro nr
    by_cases hnr : nr = ""
    · simp [iter_loop, hnr]
    · have hg : _get (server nr) = GetResult.page (server nr).body := by
        simp [_get, h nr]
      simpa [iter_loop, hnr, hg] using ih (server nr).body.next

/-- C7 (amended): a 403 response makes `_get` print the invalid-API-key
message and `sys.exit(1)`; a 400 response makes it print the
invalid-request message and `sys.exit(1)`; and a run in which every
request returns 200, the pagination chain terminates, and every fetched
pulse is well-formed (its `references` key present and every indicator
tag in the table) completes normally with exit code 0. -/
theorem c7_http_status_policy :
    (∀ r : Response, r.status = 403 →
       _get r = GetResult.exited "An invalid API key was specified." 1) ∧
    (∀ r : Response, r.status = 400 →
       _get r = GetResult.exited "An invalid request was made." 1) ∧
    (∀ (d : String) (first : Response) (server : String → Response) (fuel : Nat),
       first.status = 200 → (∀ u, (server u).status = 200) →
       (iter_pulses first server fuel).2 ≠ some FetchError.fuelOut →
       (∀ p ∈ (iter_pulses first server fuel).1, pulse_wf p = true) →
       (run_main d first server fuel).2 = ProcResult.completed ∧
       exit_code (run_main d first server fuel).2 = some 0) := by
  refine ⟨?_, ?_, ?_⟩
  · intro r h; simp [_get, h]
  · intro r h; simp [_get, h]
  · intro d first server fuel h200 hall hfuel hwf
    have hg : _get first = GetResult.page first.body := by simp [_get, h200]
    have hferr : (iter_pulses first server fuel).2 = none := by
      have := iter_loop_all200 server hall fuel first.body.next
      have h2 : (iter_pulses first server fuel).2 =
          (iter_loop server fuel first.body.next).2 := by
        simp [iter_pulses, hg]
      rcases this with h | h
      · rw [h2, h]
      · rw [h2, h] at hfuel; exact absurd rfl hfuel
    have hwerr : (run_records d (iter_pulses first server fuel).1).2 = none :=
      run_records_no_err d _ hwf
    have hmain : (run_main d first server fuel).2 = ProcResult.completed := by
      simp [run_main, hwerr, hferr]
    exact ⟨hmain, by rw [hmain]; rfl⟩

/-- C7 witness: a single-page all-200 run over one well-formed pulse
completes with exit code 0. -/
theorem c7_http_status_policy_witness :
    (run_main "T" ⟨200, ⟨[⟨"A", some ["u"], [⟨"1.2.3.4", "IPv4"⟩]⟩], ""⟩⟩
        (fun _ => ⟨200, ⟨[], ""⟩⟩) 1).2 = ProcResult.completed ∧
    exit_code (run_main "T" ⟨200, ⟨[⟨"A", some ["u"], [⟨"1.2.3.4", "IPv4"⟩]⟩], ""⟩⟩
        (fun _ => ⟨200, ⟨[], ""⟩⟩) 1).2 = some 0 :=
  c7_http_status_policy.2.2 "T" ⟨200, ⟨[⟨"A", some ["u"], [⟨"1.2.3.4", "IPv4"⟩]⟩], ""⟩⟩
    (fun _ => ⟨200, ⟨[], ""⟩⟩) 1 rfl (fun _ => rfl) (by decide) (by decide)

/-- C7 counterexample: a run whose only HTTP request returns 200 but whose
pulse carries an indicator tag absent from the table crashes with an
uncaught `KeyError` (CPython exit status 1); it does not complete
normally with exit code 0, refuting the claim as stated. -/
theorem c7_http_status_policy_cex :
    (Response.mk 200 ⟨[⟨"A", some ["u"], [⟨"x", "Bitcoin"⟩]⟩], ""⟩).status = 200 ∧
    (run_main "T" ⟨200, ⟨[⟨"A", some ["u"], [⟨"x", "Bitcoin"⟩]⟩], ""⟩⟩
        (fun _ => ⟨200, ⟨[], ""⟩⟩) 1).2 = ProcResult.crashed "KeyError: Bitcoin" ∧
    exit_code (run_main "T" ⟨200, ⟨[⟨"A", some ["u"], [⟨"x", "Bitcoin"⟩]⟩], ""⟩⟩
        (fun _ => ⟨200, ⟨[], ""⟩⟩) 1).2 ≠ some 0 := by
  refine ⟨rfl, by decide, by decide⟩

/-- C8: a tag absent from the table makes `map_indicator_type` raise a
`KeyError`, and the record loop propagates it: the indicator is neither
silently dropped nor mapped to a default category — no record is built
and the exception aborts the loop. -/
theorem c8_unknown_type :
    ∀ t : String, _MAP.lookup t = none →
      map_indicator_type t = Except.error ("KeyError: " ++ t) ∧
      (∀ (d : String) (p : Pulse) (v : String) (rest : List Indicator),
        pulse_records d p (⟨v, t⟩ :: rest) = ([], some ("KeyError: " ++ t))) := by
  intro t ht
  have hm : map_indicator_type t = Except.error ("KeyError: " ++ t) := by
    simp [map_indicator_type, ht]
  exact ⟨hm, fun d p v rest => by simp [pulse_records, hm]⟩

/-- C8 witness: the unknown tag `YARA` raises rather than being dropped. -/
theorem c8_unknown_type_witness :
    map_indicator_type "YARA" = Except.error "KeyError: YARA" :=
  (c8_unknown_type "YARA" (by decide)).1

/-- C9: on any status other than 200, 403 and 400, `_get` falls through to
Python's implicit `None` (no exit, no message), and `iter_pulses`
subscripting that `None` raises `TypeError`: such a response yields no
pulses, whether it is the first page or a later one. -/
theorem c9_unhandled_status :
    ∀ r : Response, r.status ≠ 200 → r.status ≠ 403 → r.status ≠ 400 →
      _get r = GetResult.noneResult ∧
      (∀ (server : String → Response) (fuel : Nat),
        iter_pulses r server fuel = ([], some FetchError.typeError)) ∧
      (∀ (server : String → Response) (fuel : Nat) (u : String),
        u ≠ "" → server u = r →
        iter_loop server (fuel + 1) u = ([], some FetchError.typeError)) := by
  intro r h1 h2 h3
  have hg : _get r = GetResult.noneResult := by simp [_get, h1, h2, h3]
  refine ⟨hg, ?_, ?_⟩
  · intro server fuel
    simp [iter_pulses, hg]
  · intro server fuel u hu hsrv
    simp [iter_loop, hu, hsrv, hg]

/-- C9 witness: a 500 response falls through to `None` and the fetcher
fails with `TypeError` instead of yielding pulses. -/
theorem c9_unhandled_status_witness :
    _get ⟨500, ⟨[], ""⟩⟩ = GetResult.noneResult ∧
    iter_pulses ⟨500, ⟨[], ""⟩⟩ (fun _ => ⟨500, ⟨[], ""⟩⟩) 3 =
      ([], some FetchError.typeError) :=
  ⟨(c9_unhandled_status ⟨500, ⟨[], ""⟩⟩ (by decide) (by decide) (by decide)).1,
   (c9_unhandled_status ⟨500, ⟨[], ""⟩⟩ (by decide) (by decide) (by decide)).2.1
     (fun _ => ⟨500, ⟨[], ""⟩⟩) 3⟩

/-- C10: the fallback URL is used exactly when the `references` key is
present with an empty list (the `IndexError` is caught); a missing
`references` key raises an uncaught `KeyError` as soon as a retained
indicator is processed, and any such record-builder exception aborts the
run as a crash. -/
theorem c10_missing_references :
    (resolve_url (some []) = Except.ok "https://otx.alienvault.com") ∧
    (resolve_url none = Except.error "KeyError: references") ∧
    (∀ (d : String) (p : Pulse) (v t bro : String) (rest : List Indicator),
       p.references = none → map_indicator_type t = Except.ok bro →
       bro ≠ "Unsupported" →
       pulse_records d p (⟨v, t⟩ :: rest) = ([], some "KeyError: references")) ∧
    (∀ (d : String) (ps : List Pulse) (e : String) (first : Response)
       (server : String → Response) (fuel : Nat),
       (run_records d ps).2 = some e → iter_pulses first server fuel = (ps, none) →
       (run_main d first server fuel).2 = ProcResult.crashed e) := by
  refine ⟨rfl, rfl, ?_, ?_⟩
  · intro d p v t bro rest href hm hb
    simp [pulse_records, hm, hb, href, resolve_url]
  · intro d ps e first server fuel hrr hiter
    simp [run_main, hiter, hrr]

/-- C10 witness: a pulse lacking the `references` key crashes on its first
retained indicator instead of using the fallback URL. -/
theorem c10_missing_references_witness :
    pulse_records "T" ⟨"A", none, []⟩ [⟨"x", "IPv4"⟩] =
      ([], some "KeyError: references") :=
  c10_missing_references.2.2.1 "T" ⟨"A", none, []⟩ "x" "IPv4" "Intel::ADDR" []
    rfl rfl (by decide)
